import Mathlib

/-!
Shallow embedding of two browser-UI modules of grist-core:
`app/client/components/AceEditor.js` (a wrapper around the ace code-editor
widget) and the document-settings page (`DocSettingsPage`,
`buildLocaleSelect`, `getSupportedEngineChoices`).

JavaScript state is modelled by explicit records, remote calls by lists of
emitted call descriptions, and thrown exceptions by `Except`.
-/

set_option autoImplicit false

namespace Grist

/-- A JavaScript primitive value, used where the source relies on JS
truthiness or strict equality (e.g. `options.saveValueOnBlurEvent === false`). -/
inductive JSVal where
  | undef
  | null
  | boolean (b : Bool)
  | number (n : Int)
  | string (s : String)
deriving DecidableEq, Repr

/-- JS strict equality against the literal `false`: true only for the
boolean value `false`. -/
def JSVal.strictEqFalse : JSVal → Bool
  | JSVal.boolean false => true
  | _ => false

/-- JS truthiness: `undefined`, `null`, `false`, `0` and `""` are falsy. -/
def JSVal.falsy : JSVal → Bool
  | JSVal.undef => true
  | JSVal.null => true
  | JSVal.boolean b => !b
  | JSVal.number n => n == 0
  | JSVal.string s => s == ""

/-- Whether a JS value is a string. -/
def JSVal.isString : JSVal → Bool
  | JSVal.string _ => true
  | _ => false

/-- A row/column position in the editor document. -/
structure Pos where
  row : Nat
  column : Nat
deriving DecidableEq, Repr

/-- Advance a row/column position over one character: a newline moves to the
start of the next row, any other character moves one column right. -/
def stepPos (p : Pos) (c : Char) : Pos :=
  if c = '\n' then { row := p.row + 1, column := 0 }
  else { p with column := p.column + 1 }

/-- Modelled from the spec: the third-party ace document's
`indexToPosition`, mapping a character index to the row/column obtained by
scanning the text up to that index (the widget library API is an external
collaborator; the spec treats mid-range offsets as mapping to the correct
row/column). -/
def indexToPosition (val : String) (idx : Nat) : Pos :=
  (val.data.take idx).foldl stepPos { row := 0, column := 0 }

/-- The position of the document end: the position of character index
`length`. -/
def docEndPos (val : String) : Pos := indexToPosition val val.length

/-- Modelled from the spec: the state of the third-party ace widget that the
wrapper manipulates, reduced to the capabilities the wrapper uses (get/set
value, cursor movement, command registration). -/
structure AceWidget where
  value : String
  cursor : Pos
  commands : List String
deriving DecidableEq, Repr

/-- Modelled from the spec: `ace.edit(...)` creates a fresh widget with an
empty document. -/
def aceEdit : AceWidget :=
  { value := "", cursor := { row := 0, column := 0 }, commands := [] }

/-- Modelled from the spec: the underlying widget `setValue(val, flag)`. Per
the source comment in AceEditor.js, a second argument of -1 puts the cursor
at the document start and 1 at the end; the wrapper only ever passes -1 or 1.
The text is stored verbatim (for strings free of control characters this
agrees with the real widget, which may normalize control characters). -/
def aceSetValue (w : AceWidget) (val : String) (flag : Int) : AceWidget :=
  { w with
    value := val
    cursor := if flag = -1 then { row := 0, column := 0 } else docEndPos val }

/-- Modelled from the spec: the underlying widget `moveCursorTo(row, column)`. -/
def moveCursorTo (w : AceWidget) (p : Pos) : AceWidget :=
  { w with cursor := p }

/-- Modelled from the spec: the underlying widget `commands.addCommand`,
registering a named command. -/
def addCommand (w : AceWidget) (name : String) : AceWidget :=
  { w with commands := w.commands ++ [name] }

/-- Whether a character is a control character (the round-trip claim
restricts itself to strings without these). -/
def isControlChar (c : Char) : Bool := c.toNat < 32 || c.toNat == 127

/-- Whether a string contains a control character. -/
def hasControlChar (s : String) : Bool := s.data.any isControlChar

/-- The options record accepted by the `AceEditor` constructor, reduced to
the fields the claims depend on. `observable` is the bound observable's
identity (the constructor coerces a falsy observable to `null`, modelled by
`Option`); `saveValueOnBlurEvent` is kept as a raw JS value because the
constructor tests it with strict equality. -/
structure Options where
  observable : Option Nat
  saveValueOnBlurEvent : JSVal
deriving DecidableEq, Repr

/-- The mutable state of an `AceEditor` wrapper instance.
`setupTimerHandle` is the truthiness of `this._setupTimer` (the stored
timeout id), while `timerPending` records whether the scheduled timeout has
actually not yet fired: in the source the timeout callback runs `_setup()`
without clearing `this._setupTimer`, so the two can diverge.
`initCount` counts the calls to `ace.edit` (widget initializations), and
`blurHandler` whether a blur listener pushing the text to the observable has
been attached. -/
structure EditorState where
  observable : Option Nat
  saveValueOnBlur : Bool
  editor : Option AceWidget
  setupTimerHandle : Bool
  timerPending : Bool
  initCount : Nat
  blurHandler : Bool
deriving DecidableEq, Repr

/-- The `AceEditor` constructor:
`this.observable = (options && options.observable) || null;`
`this.saveValueOnBlurEvent = !(options && (options.saveValueOnBlurEvent === false));`
with the editor, timer and handlers not yet set up. -/
def mkAceEditor (options : Option Options) : EditorState :=
  { observable := options.bind Options.observable
    saveValueOnBlur :=
      match options with
      | some o => !o.saveValueOnBlurEvent.strictEqFalse
      | none => true
    editor := none
    setupTimerHandle := false
    timerPending := false
    initCount := 0
    blurHandler := false }

/-- `AceEditor.prototype._setup`: initializes the widget via `ace.edit`, and
if an observable is bound and `saveValueOnBlurEvent` is set, attaches a blur
listener that writes the current text back to the observable. -/
def setup (s : EditorState) : EditorState :=
  { s with
    editor := some aceEdit
    initCount := s.initCount + 1
    blurHandler := s.blurHandler || (s.observable.isSome && s.saveValueOnBlur) }

/-- The lifecycle events acting on an `AceEditor` instance: `buildDom`
schedules the deferred setup, `timerFire` is the scheduled timeout firing,
`onAttach` is the optional explicit attach notification. -/
inductive UIEvent where
  | buildDom
  | timerFire
  | onAttach
deriving DecidableEq, Repr

/-- One lifecycle step.
`buildDom` stores a (truthy) timer handle and schedules the timeout.
`timerFire` runs `_setup()`; the source callback does not clear
`this._setupTimer`, so the handle stays truthy.
`onAttach` tests `this._setupTimer`, and if truthy clears it, cancels the
timeout and runs `_setup()`. -/
def step (s : EditorState) : UIEvent → EditorState
  | UIEvent.buildDom => { s with setupTimerHandle := true, timerPending := true }
  | UIEvent.timerFire =>
      if s.timerPending then setup { s with timerPending := false } else s
  | UIEvent.onAttach =>
      if s.setupTimerHandle then
        setup { s with setupTimerHandle := false, timerPending := false }
      else s

/-- Run a sequence of lifecycle events from a state. -/
def run (s : EditorState) (evs : List UIEvent) : EditorState := evs.foldl step s

/-- `AceEditor.prototype.getValue`:
`return this.editor && this.editor.getValue();` — with no widget this
evaluates to the `null` stored in `this.editor`. -/
def getValue (s : EditorState) : JSVal :=
  match s.editor with
  | none => JSVal.null
  | some w => JSVal.string w.value

/-- `AceEditor.prototype.isBuilt`: `return this.editor !== null;` -/
def isBuilt (s : EditorState) : Bool := s.editor.isSome

/-- `AceEditor.prototype.setValue(val, optCursorPos)`:
calls the widget's `setValue(val, optCursorPos === 0 ? -1 : 1)`, then if
`optCursorPos > 0 && optCursorPos < val.length` moves the cursor to the
row/column of character index `optCursorPos`. `none` models an omitted
argument (in JS, `undefined === 0` and `undefined > 0` are both false). -/
def setValue (w : AceWidget) (val : String) (optCursorPos : Option Int) : AceWidget :=
  let w1 := aceSetValue w val (if optCursorPos = some 0 then -1 else 1)
  match optCursorPos with
  | some p =>
      if 0 < p ∧ p < (val.length : Int) then
        moveCursorTo w1 (indexToPosition val p.toNat)
      else w1
  | none => w1

/-- `AceEditor.prototype.attachSaveCommand`: throws when no observable is
bound; otherwise accesses `this.editor.commands` (a TypeError when the
widget has not been built) and registers the `saveFormula` command. -/
def attachSaveCommand (s : EditorState) : Except String EditorState :=
  if s.observable.isNone then
    Except.error "Cannot attach save command to editor with no bound observable"
  else
    match s.editor with
    | none => Except.error "TypeError: cannot read properties of null (reading commands)"
    | some w => Except.ok { s with editor := some (addCommand w "saveFormula") }

/-- A pixel size, as passed to and returned by the caller-supplied
`calcSize` function. -/
structure Size where
  width : Int
  height : Int
deriving DecidableEq, Repr

/-- The rendering metrics `resize` reads from the widget: wrap mode,
`session.getScreenWidth()`, `session.getScreenLength()`,
`renderer.characterWidth` and `renderer.lineHeight`. -/
structure RenderMetrics where
  useWrapMode : Bool
  screenWidth : Int
  screenLength : Int
  characterWidth : Int
  lineHeight : Int
deriving DecidableEq, Repr

/-- `this.textPadding = 10;` — space after the cursor when not in wrap mode. -/
def textPadding : Int := 10

/-- `AceEditor.prototype._getContentWidth`:
`this.session.getScreenWidth() * this.editor.renderer.characterWidth`. -/
def getContentWidth (m : RenderMetrics) : Int := m.screenWidth * m.characterWidth

/-- `AceEditor.prototype._getContentHeight`:
`Math.max(1, this.session.getScreenLength()) * this.editor.renderer.lineHeight`. -/
def getContentHeight (m : RenderMetrics) : Int := max 1 m.screenLength * m.lineHeight

/-- `AceEditor.prototype.resize`: computes the desired size, applies the
caller-supplied `calcSize`, and if the returned width is below the content
width re-applies `calcSize` with the desired height increased by 20 pixels
(space for a horizontal scrollbar). Returns the size finally applied to the
editor element. -/
def resize (calcSize : Size → Size) (m : RenderMetrics) : Size :=
  let contentWidth := if m.useWrapMode then 0 else getContentWidth m
  let desiredSize : Size :=
    { width := if m.useWrapMode then 0 else contentWidth + textPadding
      height := getContentHeight m }
  let size := calcSize desiredSize
  if size.width < contentWidth then
    calcSize { desiredSize with height := desiredSize.height + 20 }
  else size

/-- The desired size as the spec words it: width 0 in wrap mode, otherwise
screen width times character width plus padding; height computed from line
count and line height (at least one line). -/
def specDesiredSize (m : RenderMetrics) : Size :=
  { width := if m.useWrapMode then 0 else m.screenWidth * m.characterWidth + textPadding
    height := getContentHeight m }

/-- The content width as the spec words it: 0 in wrap mode, otherwise screen
width times character width. -/
def specContentWidth (m : RenderMetrics) : Int :=
  if m.useWrapMode then 0 else m.screenWidth * m.characterWidth

/-- A remote call issued by the engine-setting flow of `DocSettingsPage`. -/
inductive EngineCall where
  | saveEngine (val : Option String)
  | forceReload
deriving DecidableEq, Repr

/-- `DocSettingsPage._doSetEngine(val)` — the callback run when the user
confirms the engine change in the modal. `current` is `this._engine.get()`.
When `current !== val` it awaits a save of the engine setting and then a
`forceReload`; otherwise it does nothing. Returns the list of remote calls
issued, in order. -/
def doSetEngine (current val : Option String) : List EngineCall :=
  if current ≠ val then [EngineCall.saveEngine val, EngineCall.forceReload] else []

/-- An entry of the static locale list (`app/common/Locales`): a display
name and a locale code. -/
structure Locale where
  name : String
  code : String
deriving DecidableEq, Repr

/-- An autocomplete item of the locale picker, as built by
`buildLocaleSelect`: `value` and `label` are the display name, `locale` the
underlying code, `cleanText` the trimmed lower-cased name. -/
structure LocaleItem where
  value : String
  label : String
  locale : Option String
  cleanText : String
deriving DecidableEq, Repr

/-- The item `buildLocaleSelect` constructs from one locale:
`{value: l.name, label: l.name, locale: l.code, cleanText: l.name.trim().toLowerCase()}`. -/
def localeItemOf (l : Locale) : LocaleItem :=
  { value := l.name
    label := l.name
    locale := some l.code
    cleanText := l.name.trim.toLower }

/-- The locale item list of `buildLocaleSelect`: each locale mapped to its
item, sorted by label (`propertyCompare("label")`). -/
def buildLocaleList (locales : List Locale) : List LocaleItem :=
  (locales.map localeItemOf).mergeSort fun a b => decide (a.label ≤ b.label)

/-- The `save` callback passed by `buildLocaleSelect` to `buildACSelect`:
with no item it throws "Invalid locale" and issues no save; with an item it
calls `locale.saveOnly(item.locale!)`. The second component is the list of
values saved to the locale observable. -/
def localeSaveCallback (item : Option LocaleItem) :
    Except String Unit × List (Option String) :=
  match item with
  | none => (Except.error "Invalid locale", [])
  | some it => (Except.ok (), [it.locale])

/-- A sample options record with a bound observable, used by concrete
instantiations. -/
def boundOptions : Options := { observable := some 1, saveValueOnBlurEvent := JSVal.undef }

/-- A sample options record whose save-on-blur flag is the number 0 (a falsy
value that is nevertheless not strictly equal to false). -/
def numberZeroOptions : Options := { observable := some 2, saveValueOnBlurEvent := JSVal.number 0 }

/-- Sample rendering metrics used by concrete instantiations. -/
def sampleMetrics : RenderMetrics :=
  { useWrapMode := false, screenWidth := 30, screenLength := 2
    characterWidth := 7, lineHeight := 15 }

/-! ## Theorems -/

/-- C1: when the engine value confirmed in the modal equals the currently
stored engine value, `_doSetEngine` issues no remote call; when it differs,
it issues exactly one save of the engine setting followed by exactly one
`forceReload`, in that order. -/
theorem doSetEngine_calls (current val : Option String) :
    (val = current → doSetEngine current val = [])
    ∧ (val ≠ current →
        doSetEngine current val = [EngineCall.saveEngine val, EngineCall.forceReload]
        ∧ (doSetEngine current val).count (EngineCall.saveEngine val) = 1
        ∧ (doSetEngine current val).count EngineCall.forceReload = 1) := by
  constructor
  · rintro rfl
    simp [doSetEngine]
  · intro hne
    have h : current ≠ val := fun h => hne h.symm
    refine ⟨by simp [doSetEngine, h], ?_, ?_⟩ <;>
      simp [doSetEngine, h, List.count_cons]

/-- Witness for C1 at concrete engine values. -/
theorem doSetEngine_calls_witness :
    (doSetEngine (some "python2") (some "python2") = [])
    ∧ (doSetEngine (some "python2") (some "python3")
        = [EngineCall.saveEngine (some "python3"), EngineCall.forceReload]) :=
  ⟨(doSetEngine_calls (some "python2") (some "python2")).1 rfl,
   ((doSetEngine_calls (some "python2") (some "python3")).2 (by decide)).1⟩

/-- C2 counterexample: an instance with a bound observable whose widget has
not been built; `attachSaveCommand` throws (a TypeError from accessing
`this.editor.commands` on `null`), refuting "when an observable is bound,
attachSaveCommand does not throw". -/
theorem attachSaveCommand_bound_unbuilt_throws :
    (mkAceEditor (some boundOptions)).observable = some 1
    ∧ attachSaveCommand (mkAceEditor (some boundOptions))
      = Except.error "TypeError: cannot read properties of null (reading commands)" := by
  constructor <;> rfl

/-- C2 (amended): with no bound observable `attachSaveCommand` throws
immediately and attaches no command; with a bound observable and a built
widget it does not throw and registers the `saveFormula` command. -/
theorem attachSaveCommand_spec (s : EditorState) :
    (s.observable = none →
      attachSaveCommand s
        = Except.error "Cannot attach save command to editor with no bound observable")
    ∧ (∀ w, s.observable.isSome = true → s.editor = some w →
        attachSaveCommand s
          = Except.ok { s with editor := some (addCommand w "saveFormula") }) := by
  constructor
  · intro h
    simp [attachSaveCommand, h]
  · intro w hobs hed
    have : s.observable.isNone = false := by
      cases h : s.observable <;> simp_all
    simp [attachSaveCommand, this, hed]

/-- Witness for C2's amended theorem at a concrete state. -/
theorem attachSaveCommand_spec_witness :
    attachSaveCommand (mkAceEditor none)
      = Except.error "Cannot attach save command to editor with no bound observable"
    ∧ attachSaveCommand (setup (mkAceEditor (some boundOptions)))
      = Except.ok { setup (mkAceEditor (some boundOptions)) with
                    editor := some (addCommand aceEdit "saveFormula") } :=
  ⟨(attachSaveCommand_spec (mkAceEditor none)).1 rfl,
   (attachSaveCommand_spec (setup (mkAceEditor (some boundOptions)))).2 aceEdit rfl rfl⟩

/-- C3: setting the editor text and reading it back returns the same string,
for any string without control characters (round-trip through the wrapper's
setValue and getValue on a built editor). -/
theorem setValue_getValue_roundtrip (s : EditorState) (w : AceWidget) (val : String)
    (optPos : Option Int) (hw : s.editor = some w) (hc : hasControlChar val = false) :
    getValue { s with editor := some (setValue w val optPos) } = JSVal.string val := by
  cases optPos with
  | none => simp [getValue, setValue, aceSetValue]
  | some p =>
      simp only [getValue, setValue, aceSetValue, moveCursorTo]
      split <;> rfl

/-- Witness for C3 at a concrete state and string. -/
theorem setValue_getValue_roundtrip_witness :
    getValue { mkAceEditor none with
               editor := some (setValue aceEdit "x = 1" (some 3)) } = JSVal.string "x = 1" :=
  setValue_getValue_roundtrip { mkAceEditor none with editor := some aceEdit }
    aceEdit "x = 1" (some 3) rfl (by decide)

/-- C4: setValue places the cursor at the document start for offset 0, at
the document end for offset length or when the offset is omitted, and at
the row/column of character index p for mid-range offsets. -/
theorem setValue_cursor (w : AceWidget) (val : String) (p : Int)
    (hp0 : 0 ≤ p) (hp1 : p ≤ (val.length : Int)) :
    (p = 0 → (setValue w val (some p)).cursor = { row := 0, column := 0 })
    ∧ (p = (val.length : Int) → (setValue w val (some p)).cursor = docEndPos val)
    ∧ ((setValue w val none).cursor = docEndPos val)
    ∧ (0 < p → p < (val.length : Int) →
        (setValue w val (some p)).cursor = indexToPosition val p.toNat) := by
  refine ⟨?_, ?_, ?_, ?_⟩
  · rintro rfl
    simp [setValue, aceSetValue]
  · rintro rfl
    by_cases h0 : (val.length : Int) = 0
    · have hlen : val.length = 0 := by exact_mod_cast h0
      simp [setValue, aceSetValue, h0, docEndPos, hlen, indexToPosition]
    · have hne : some ((val.length : Int)) ≠ some (0 : Int) := by
        simpa using h0
      simp [setValue, aceSetValue, hne, h0]
  · simp [setValue, aceSetValue]
  · intro h1 h2
    have hne : some p ≠ some (0 : Int) := by
      simp only [ne_eq, Option.some.injEq]
      omega
    simp [setValue, aceSetValue, moveCursorTo, hne, h1, h2]

/-- Witness for C4 at a concrete string and offsets. -/
theorem setValue_cursor_witness :
    ((setValue aceEdit "ab\ncd" (some 0)).cursor = { row := 0, column := 0 })
    ∧ ((setValue aceEdit "ab\ncd" (some 5)).cursor = docEndPos "ab\ncd")
    ∧ ((setValue aceEdit "ab\ncd" none).cursor = docEndPos "ab\ncd")
    ∧ ((setValue aceEdit "ab\ncd" (some 4)).cursor = indexToPosition "ab\ncd" 4) :=
  ⟨(setValue_cursor aceEdit "ab\ncd" 0 (by decide) (by decide)).1 rfl,
   (setValue_cursor aceEdit "ab\ncd" 5 (by decide) (by decide)).2.1 (by decide),
   (setValue_cursor aceEdit "ab\ncd" 5 (by decide) (by decide)).2.2.1,
   (setValue_cursor aceEdit "ab\ncd" 4 (by decide) (by decide)).2.2.2 (by decide) (by decide)⟩

/-- C5: for every locale in the (arbitrary) static locale list, the
autocomplete item built for it is in the picker's item list, carries the
locale's display name as its label, and when passed to the save callback
persists the locale's underlying code, not the display name. -/
theorem localeSelect_saves_code (locales : List Locale) (l : Locale) (h : l ∈ locales) :
    localeItemOf l ∈ buildLocaleList locales
    ∧ (localeItemOf l).label = l.name
    ∧ localeSaveCallback (some (localeItemOf l)) = (Except.ok (), [some l.code]) := by
  refine ⟨?_, rfl, rfl⟩
  have hperm := List.mergeSort_perm (locales.map localeItemOf)
    (fun a b => decide (a.label ≤ b.label))
  rw [buildLocaleList, hperm.mem_iff]
  exact List.mem_map_of_mem localeItemOf h

/-- Witness for C5 at a concrete locale list. -/
theorem localeSelect_saves_code_witness :
    localeItemOf { name := "German", code := "de" }
      ∈ buildLocaleList [{ name := "German", code := "de" },
                         { name := "English", code := "en" }]
    ∧ localeSaveCallback (some (localeItemOf { name := "German", code := "de" }))
      = (Except.ok (), [some "de"]) :=
  ⟨(localeSelect_saves_code [{ name := "German", code := "de" },
      { name := "English", code := "en" }] { name := "German", code := "de" }
      (by simp)).1,
   (localeSelect_saves_code [{ name := "German", code := "de" },
      { name := "English", code := "en" }] { name := "German", code := "de" }
      (by simp)).2.2⟩

/-- C6: the locale save callback invoked with no matching item throws
"Invalid locale" and issues no save of the locale observable. -/
theorem localeSaveCallback_none :
    localeSaveCallback none = (Except.error "Invalid locale", []) := rfl

/-- C7: resize computes the desired size from character metrics and line
count (width 0 in wrap mode, otherwise screen width times character width
plus padding; height at least one line height), applies calcSize, and if
the returned width is below the content width applies calcSize again with
the desired height increased by 20 pixels and uses that result. -/
theorem resize_spec (calcSize : Size → Size) (m : RenderMetrics)
    (hl : 0 ≤ m.lineHeight) :
    resize calcSize m
      = (if (calcSize (specDesiredSize m)).width < specContentWidth m then
          calcSize { specDesiredSize m with height := (specDesiredSize m).height + 20 }
        else calcSize (specDesiredSize m))
    ∧ m.lineHeight ≤ (specDesiredSize m).height := by
  constructor
  · cases h : m.useWrapMode <;>
      simp [resize, specDesiredSize, specContentWidth, getContentWidth, h]
  · have h1 : (1 : Int) ≤ max 1 m.screenLength := le_max_left _ _
    calc m.lineHeight = 1 * m.lineHeight := (one_mul _).symm
      _ ≤ max 1 m.screenLength * m.lineHeight := by
          exact mul_le_mul_of_nonneg_right h1 hl
      _ = (specDesiredSize m).height := rfl

/-- Witness for C7 at a concrete sizing function and metrics. -/
theorem resize_spec_witness :
    resize (fun s => s) sampleMetrics
      = (if ((fun (s : Size) => s) (specDesiredSize sampleMetrics)).width
            < specContentWidth sampleMetrics then
          (fun (s : Size) => s)
            { specDesiredSize sampleMetrics with
              height := (specDesiredSize sampleMetrics).height + 20 }
        else (fun (s : Size) => s) (specDesiredSize sampleMetrics))
    ∧ sampleMetrics.lineHeight ≤ (specDesiredSize sampleMetrics).height :=
  resize_spec (fun s => s) sampleMetrics (by decide)

/-- C8: evaluating the lifecycle at the failing input. After buildDom the
deferred setup timer fires (running setup once), but the fired callback
leaves the stored timer handle set; a subsequent onAttach therefore sees a
truthy handle and runs setup a second time, initializing a second widget —
contradicting the invariant that at most one widget is ever initialized.
The bound observable, for its part, is indeed never reassigned by any step. -/
theorem onAttach_after_fire_double_init :
    (run (mkAceEditor none) [UIEvent.buildDom, UIEvent.timerFire, UIEvent.onAttach]).initCount = 2
    ∧ ∀ (s : EditorState) (e : UIEvent), (step s e).observable = s.observable := by
  constructor
  · rfl
  · intro s e
    cases e <;> simp [step, setup] <;> split <;> rfl

/-- C9: on an instance whose widget has not been initialized, getValue
returns the falsy non-string value null rather than throwing, and isBuilt
returns false. -/
theorem getValue_unbuilt (s : EditorState) (h : s.editor = none) :
    getValue s = JSVal.null
    ∧ (getValue s).falsy = true
    ∧ (getValue s).isString = false
    ∧ isBuilt s = false := by
  refine ⟨?_, ?_, ?_, ?_⟩ <;> simp [getValue, isBuilt, h, JSVal.falsy, JSVal.isString]

/-- Witness for C9 at a freshly constructed instance. -/
theorem getValue_unbuilt_witness :
    getValue (mkAceEditor none) = JSVal.null
    ∧ (getValue (mkAceEditor none)).falsy = true
    ∧ (getValue (mkAceEditor none)).isString = false
    ∧ isBuilt (mkAceEditor none) = false :=
  getValue_unbuilt (mkAceEditor none) rfl

/-- C10: save-on-blur is enabled unless options.saveValueOnBlurEvent is
strictly equal to false — any other value, including undefined, null or 0,
leaves it enabled — and the blur listener is attached by setup exactly when
an observable is bound and the flag is enabled. -/
theorem saveOnBlur_policy (opts : Option Options) (s : EditorState)
    (hb : s.blurHandler = false) :
    ((mkAceEditor opts).saveValueOnBlur = true ↔
      ∀ o, opts = some o → o.saveValueOnBlurEvent ≠ JSVal.boolean false)
    ∧ ((setup s).blurHandler = true ↔
        s.observable.isSome = true ∧ s.saveValueOnBlur = true) := by
  constructor
  · cases opts with
    | none => simp [mkAceEditor]
    | some o =>
        cases hv : o.saveValueOnBlurEvent with
        | boolean b =>
            cases b <;> simp [mkAceEditor, JSVal.strictEqFalse, hv]
        | undef => simp [mkAceEditor, JSVal.strictEqFalse, hv]
        | null => simp [mkAceEditor, JSVal.strictEqFalse, hv]
        | number n => simp [mkAceEditor, JSVal.strictEqFalse, hv]
        | string t => simp [mkAceEditor, JSVal.strictEqFalse, hv]
  · simp [setup, hb, Bool.and_eq_true]

/-- Witness for C10 at concrete options (here the number 0, which leaves
save-on-blur enabled) and a concrete pre-setup state. -/
theorem saveOnBlur_policy_witness :
    ((mkAceEditor (some numberZeroOptions)).saveValueOnBlur = true ↔
      ∀ o, (some numberZeroOptions : Option Options) = some o →
        o.saveValueOnBlurEvent ≠ JSVal.boolean false)
    ∧ ((setup (mkAceEditor (some numberZeroOptions))).blurHandler = true ↔
        (mkAceEditor (some numberZeroOptions)).observable.isSome = true
        ∧ (mkAceEditor (some numberZeroOptions)).saveValueOnBlur = true) :=
  saveOnBlur_policy (some numberZeroOptions) (mkAceEditor (some numberZeroOptions)) rfl

end Grist
